import Mathlib

/-!
# Formal model of the leukemia-detector backend (`app.py`)

A shallow embedding of the single-file Flask service in `app.py`.  The
service exposes `POST /api/predictions`: it validates the multipart request,
loads the selected TFLite model once, and for each uploaded file (at most the
first 6 of the raw list) saves it to the uploads directory, runs
preprocessing + inference, interprets the output vector by arg-max over the
four class labels, and deletes the temporary file again.

Modelling conventions:
* Image bytes are `List Nat`; an inference output vector is `List Int`
  (the numeric type is irrelevant to the control flow being verified, only
  the linear order is used).
* The TensorFlow runtime is opaque in the source, so a loaded model handle
  (`tf.lite.Interpreter` after `allocate_tensors`) is modelled as the
  function it induces through `model_predict`: bytes to `Option` of an
  output vector, `none` meaning the per-file try/except in `model_predict`
  caught an exception (decode or inference failure).
* Constructing the runtime handle from an artifact path (the
  `tf.lite.Interpreter(model_path=...)` + `allocate_tensors()` calls, which
  may raise) is an external effect, passed in as `tfLoad : String → Option
  Interpreter`, `none` meaning the constructor raised.
* The uploads directory is a `Finset String` of the paths currently present;
  `f.save` inserts a path, `os.remove` erases it.
* An uncaught Python exception escaping the handler is the `Response.raised`
  outcome (Flask would turn it into a 500); `jsonify(...), 400` and
  `jsonify(...), 200` are `Response.badRequest` and `Response.ok`.
-/

/-- An uploaded multipart file: original filename plus raw byte content
(`werkzeug` `FileStorage`). -/
structure UploadedFile where
  filename : String
  content : List Nat
deriving DecidableEq

/-- A `POST /api/predictions` request: whether the multipart field `files`
is present, the list `request.files.getlist("files")`, and the text form
field `model` (`request.form.get` yields `none` when absent). -/
structure Request where
  hasFilesField : Bool
  files : List UploadedFile
  model : Option String
deriving DecidableEq

/-- `class_labels = ['EarlyPreB', 'PreB', 'ProB', 'Benign']` (app.py line 14). -/
def class_labels : List String := ["EarlyPreB", "PreB", "ProB", "Benign"]

/-- `MODEL_PATHS` (app.py lines 23-28): the model registry, name to artifact path. -/
def MODEL_PATHS : List (String × String) :=
  [("EfficientB0", "models/EfficientB0.tflite"),
   ("EfficientNetB0", "models/EfficientNetB0.tflite"),
   ("MobileNetV2", "models/MobileNetV2.tflite"),
   ("NasNetMobile", "models/NasNetMobile.tflite")]

/-- The registered model names, `MODEL_PATHS.keys()`. -/
def modelNames : List String := MODEL_PATHS.map Prod.fst

/-- `UPLOAD_FOLDER` (app.py line 31), relative form. -/
def UPLOAD_FOLDER : String := "uploads"

/-- A loaded model handle, abstracted to the bytes-to-output function it
induces through `model_predict` (app.py lines 44-58): `none` when the
try/except there catches a preprocessing or inference exception. -/
def Interpreter : Type := List Nat → Option (List Int)

/-- `model_predict(img_path, interpreter)` (app.py lines 44-58): preprocess
the saved image and invoke the interpreter; the whole body is wrapped in
try/except, returning `None` on any failure.  The file at `img_path` holds
exactly the bytes just saved, so the function consumes the bytes directly. -/
def model_predict (imgBytes : List Nat) (interpreter : Interpreter) :
    Option (List Int) :=
  interpreter imgBytes

/-- `load_model(model_name)` (app.py lines 35-41): resolve the name in
`MODEL_PATHS` (raising `ValueError`, here `none`, when absent) and construct
the runtime handle from the artifact path via the opaque `tfLoad` (which
models `tf.lite.Interpreter(...)` + `allocate_tensors()` and may fail). -/
def load_model (tfLoad : String → Option Interpreter) (model_name : String) :
    Option Interpreter :=
  match MODEL_PATHS.find? (fun kv => kv.1 == model_name) with
  | none => none
  | some kv => tfLoad kv.2

/-- The maximum entry of an output vector (`0` for the empty vector, on
which NumPy would raise instead; `argmax` is only ever applied to backend
outputs, and every theorem about the empty-vector edge carries a
non-emptiness hypothesis). -/
def listMax : List Int → Int
  | [] => 0
  | x :: xs => xs.foldl max x

/-- `np.argmax(preds, axis=1)[0]` (app.py line 99) on the single output row:
the index of the FIRST occurrence of the maximum value (NumPy documents the
lowest-index tie-break). -/
def argmax (l : List Int) : Nat :=
  l.findIdx (fun x => x == listMax l)

/-- App.py lines 99-100: turn an output vector into the displayed string,
`class_labels[idx]` when the arg-max index is in range and the sentinel
`"Prediction index out of range."` otherwise. -/
def interpretPreds (preds : List Int) : String :=
  let pred_class_idx := argmax preds
  if pred_class_idx < class_labels.length then
    class_labels.getD pred_class_idx ""
  else "Prediction index out of range."

/-- One per-file result dict: either `{"predicted_class": label}` or
`{"error": msg}` alongside the filename. -/
inductive Outcome where
  | predicted_class (label : String)
  | error (msg : String)
deriving DecidableEq

/-- One entry of the response `results` list (app.py lines 94 and 101):
the ORIGINAL (unsanitized) `f.filename` plus the outcome. -/
structure ResultEntry where
  filename : String
  outcome : Outcome
deriving DecidableEq

/-- The HTTP outcome of the handler: a 400 with the given error message, a
200 with the `results` list, or an uncaught exception propagating out of
the handler (Flask answers 500). -/
inductive Response where
  | badRequest (error : String)
  | ok (results : List ResultEntry)
  | raised
deriving DecidableEq

/-- `os.path.join(UPLOAD_FOLDER, secure_filename(f.filename))` (app.py
line 87); `secure_filename` is an external werkzeug utility, passed in as
`sanitize`. -/
def filePath (sanitize : String → String) (f : UploadedFile) : String :=
  UPLOAD_FOLDER ++ "/" ++ sanitize f.filename

/-- The loop body for one non-skipped file (app.py lines 87-104): save the
file, run `model_predict`, record either the error entry or the interpreted
label entry, and in both cases `os.remove` the temporary file. -/
def processFile (interpreter : Interpreter) (sanitize : String → String)
    (storage : Finset String) (f : UploadedFile) :
    ResultEntry × Finset String :=
  let file_path := filePath sanitize f
  let saved := insert file_path storage
  match model_predict f.content interpreter with
  | none =>
      ({ filename := f.filename, outcome := Outcome.error "Prediction failed." },
       saved.erase file_path)
  | some preds =>
      ({ filename := f.filename, outcome := Outcome.predicted_class (interpretPreds preds) },
       saved.erase file_path)

/-- The per-file loop (app.py lines 82-104) over an already-truncated file
list: skip entries with an empty filename, process the rest in order,
threading the uploads-directory state. -/
def processFiles (interpreter : Interpreter) (sanitize : String → String) :
    Finset String → List UploadedFile → List ResultEntry × Finset String
  | storage, [] => ([], storage)
  | storage, f :: fs =>
      if f.filename == "" then processFiles interpreter sanitize storage fs
      else
        let step := processFile interpreter sanitize storage f
        let rest := processFiles interpreter sanitize step.2 fs
        (step.1 :: rest.1, rest.2)

/-- The `upload` handler for `POST /api/predictions` (app.py lines 67-106):
the three validation checks, the single `load_model` call, the capped
per-file loop over `files[:6]`, and the 200 response carrying the results. -/
def upload (tfLoad : String → Option Interpreter) (sanitize : String → String)
    (req : Request) (storage : Finset String) : Response × Finset String :=
  if req.hasFilesField = false then
    (Response.badRequest "No file part.", storage)
  else if req.files.length == 0 || req.files.all (fun f => f.filename == "") then
    (Response.badRequest "At least one image file is required.", storage)
  else
    match req.model with
    | none => (Response.badRequest "Invalid model selected.", storage)
    | some selected_model =>
        if modelNames.contains selected_model = false then
          (Response.badRequest "Invalid model selected.", storage)
        else
          match load_model tfLoad selected_model with
          | none => (Response.raised, storage)
          | some interpreter =>
              let run := processFiles interpreter sanitize storage (req.files.take 6)
              (Response.ok run.1, run.2)

/-- The result entry a single file gives rise to; equal to the first
component of `processFile` (which does not depend on the storage state). -/
def entryOf (interpreter : Interpreter) (f : UploadedFile) : ResultEntry :=
  match model_predict f.content interpreter with
  | none => { filename := f.filename, outcome := Outcome.error "Prediction failed." }
  | some preds =>
      { filename := f.filename, outcome := Outcome.predicted_class (interpretPreds preds) }

/-! ## Concrete fixtures used to instantiate the theorems -/

/-- A backend that decodes every image except the one with byte content
`[2]`, answering the one-hot vector for class 0. -/
def interpA : Interpreter := fun bytes => if bytes = [2] then none else some [1, 0, 0, 0]

/-- A backend answering a 5-entry vector whose maximum sits at index 4. -/
def interp5 : Interpreter := fun _ => some [0, 0, 0, 0, 1]

/-- A runtime constructor that always succeeds with `interpA`. -/
def tfLoadA : String → Option Interpreter := fun _ => some interpA

/-- A runtime constructor that always succeeds with `interp5`. -/
def tfLoad5 : String → Option Interpreter := fun _ => some interp5

/-- A runtime constructor that always fails (missing or corrupt artifact). -/
def tfLoadFail : String → Option Interpreter := fun _ => none

def fileA : UploadedFile := { filename := "a.png", content := [1] }

def fileB : UploadedFile := { filename := "b.png", content := [2] }

def fileC : UploadedFile := { filename := "c.png", content := [1] }

def fileG : UploadedFile := { filename := "g.png", content := [1] }

def fileEmptyName : UploadedFile := { filename := "", content := [3] }

/-- A two-file request against a registered model. -/
def reqA : Request := { hasFilesField := true, files := [fileA, fileB], model := some "MobileNetV2" }

/-- Seven files: six empty-filename entries followed by one real file. -/
def req7 : Request :=
  { hasFilesField := true,
    files := [fileEmptyName, fileEmptyName, fileEmptyName, fileEmptyName,
              fileEmptyName, fileEmptyName, fileG],
    model := some "MobileNetV2" }

/-- `files` field present but the only entry has an empty filename. -/
def reqNoUsable : Request :=
  { hasFilesField := true, files := [fileEmptyName], model := some "MobileNetV2" }

/-- A valid file list but an unregistered model name. -/
def reqBadModel : Request :=
  { hasFilesField := true, files := [fileA], model := some "ResNet50" }

example : argmax [3, 5, 5, 1] = 1 := by decide

example : interpretPreds [5, 1] = "EarlyPreB" := by decide

example : interpretPreds [0, 0, 0, 0, 1] = "Prediction index out of range." := by decide

/-! ## Helper lemmas about `listMax` and `argmax` -/

lemma foldl_max_ge_init (xs : List Int) (x : Int) : x ≤ xs.foldl max x := by
  induction xs generalizing x with
  | nil => exact le_refl x
  | cons y ys ih => exact le_trans (le_max_left x y) (ih (max x y))

lemma foldl_max_ge_mem (xs : List Int) (x a : Int) (h : a ∈ xs) :
    a ≤ xs.foldl max x := by
  induction xs generalizing x with
  | nil => cases h
  | cons y ys ih =>
      rcases List.mem_cons.mp h with rfl | hmem
      · exact le_trans (le_max_right x a) (foldl_max_ge_init ys (max x a))
      · exact ih (max x y) hmem

lemma foldl_max_choice (xs : List Int) (x : Int) :
    xs.foldl max x = x ∨ xs.foldl max x ∈ xs := by
  induction xs generalizing x with
  | nil => exact Or.inl rfl
  | cons y ys ih =>
      rcases ih (max x y) with heq | hmem
      · rw [List.foldl_cons, heq]
        rcases max_choice x y with h | h
        · exact Or.inl h
        · exact Or.inr (by rw [h]; exact List.mem_cons_self y ys)
      · exact Or.inr (List.mem_cons_of_mem y hmem)

lemma le_listMax (l : List Int) (a : Int) (h : a ∈ l) : a ≤ listMax l := by
  cases l with
  | nil => cases h
  | cons x xs =>
      rcases List.mem_cons.mp h with rfl | hmem
      · exact foldl_max_ge_init xs a
      · exact foldl_max_ge_mem xs x a hmem

lemma listMax_mem (l : List Int) (h : l ≠ []) : listMax l ∈ l := by
  cases l with
  | nil => exact absurd rfl h
  | cons x xs =>
      rcases foldl_max_choice xs x with heq | hmem
      · show xs.foldl max x ∈ x :: xs
        rw [heq]
        exact List.mem_cons_self x xs
      · exact List.mem_cons_of_mem x hmem

lemma argmax_lt_length (l : List Int) (h : l ≠ []) : argmax l < l.length := by
  apply List.findIdx_lt_length_of_exists
  exact ⟨listMax l, listMax_mem l h, by simp⟩

lemma getElem_argmax (l : List Int) (h : argmax l < l.length) :
    l[argmax l] = listMax l := by
  have := @List.findIdx_getElem Int (fun x => x == listMax l) l h
  simpa using this

lemma getElem_lt_of_lt_argmax (l : List Int) (j : Nat) (hj : j < argmax l)
    (hjl : j < l.length) : l[j] < listMax l := by
  have hne : (l[j] == listMax l) = false := List.not_of_lt_findIdx hj
  have hle : l[j] ≤ listMax l := le_listMax l l[j] (List.getElem_mem hjl)
  have : l[j] ≠ listMax l := by simpa using hne
  exact lt_of_le_of_ne hle this

/-- `argmax` is sound and first-occurrence: on a nonempty vector it lands in
range, attains the maximum, and every earlier entry is strictly smaller. -/
lemma argmax_spec (l : List Int) (h : l ≠ []) :
    argmax l < l.length ∧ l.getD (argmax l) 0 = listMax l ∧
      ∀ j, j < argmax l → l.getD j 0 < listMax l := by
  have hlt := argmax_lt_length l h
  refine ⟨hlt, ?_, ?_⟩
  · rw [List.getD_eq_getElem?_getD, List.getElem?_eq_getElem hlt]
    simpa using getElem_argmax l hlt
  · intro j hj
    have hjl : j < l.length := lt_trans hj hlt
    rw [List.getD_eq_getElem?_getD, List.getElem?_eq_getElem hjl]
    simpa using getElem_lt_of_lt_argmax l j hj hjl

/-! ## Helper lemmas about the per-file loop -/

lemma processFile_fst (interpreter : Interpreter) (sanitize : String → String)
    (storage : Finset String) (f : UploadedFile) :
    (processFile interpreter sanitize storage f).1 = entryOf interpreter f := by
  unfold processFile entryOf
  cases model_predict f.content interpreter <;> rfl

lemma processFile_snd (interpreter : Interpreter) (sanitize : String → String)
    (storage : Finset String) (f : UploadedFile) :
    (processFile interpreter sanitize storage f).2 =
      storage.erase (filePath sanitize f) := by
  unfold processFile
  cases model_predict f.content interpreter <;>
    simp [Finset.erase_insert_eq_erase]

/-- The entries the loop produces: one `entryOf` per file of the (truncated)
list whose filename is non-empty, in order; independent of the storage
state. -/
lemma processFiles_fst (interpreter : Interpreter) (sanitize : String → String)
    (storage : Finset String) (fs : List UploadedFile) :
    (processFiles interpreter sanitize storage fs).1 =
      (fs.filter (fun f => !(f.filename == ""))).map (entryOf interpreter) := by
  induction fs generalizing storage with
  | nil => rfl
  | cons f fs ih =>
      by_cases h : f.filename = ""
      · simp [processFiles, h, List.filter_cons, ih]
      · have hb : (f.filename == "") = false := by simpa using h
        simp [processFiles, hb, List.filter_cons, ih, processFile_fst]

/-- The storage state the loop leaves behind: the initial state with the
temporary path of every processed file erased. -/
lemma processFiles_snd (interpreter : Interpreter) (sanitize : String → String)
    (storage : Finset String) (fs : List UploadedFile) :
    (processFiles interpreter sanitize storage fs).2 =
      ((fs.filter (fun f => !(f.filename == ""))).map (filePath sanitize)).foldl
        Finset.erase storage := by
  induction fs generalizing storage with
  | nil => rfl
  | cons f fs ih =>
      by_cases h : f.filename = ""
      · simp [processFiles, h, List.filter_cons, ih]
      · have hb : (f.filename == "") = false := by simpa using h
        simp [processFiles, hb, List.filter_cons, ih, processFile_snd]

lemma mem_foldl_erase (ps : List String) (s : Finset String) (x : String) :
    x ∈ ps.foldl Finset.erase s ↔ x ∈ s ∧ x ∉ ps := by
  induction ps generalizing s with
  | nil => simp
  | cons p ps ih =>
      rw [List.foldl_cons, ih]
      simp only [Finset.mem_erase, List.mem_cons]
      constructor
      · rintro ⟨⟨hxp, hxs⟩, hxps⟩
        exact ⟨hxs, by rintro (rfl | hc) <;> [exact hxp rfl; exact hxps hc]⟩
      · rintro ⟨hxs, hn⟩
        exact ⟨⟨fun hc => hn (Or.inl hc), hxs⟩, fun hc => hn (Or.inr hc)⟩

lemma entryOf_filename (interpreter : Interpreter) (f : UploadedFile) :
    (entryOf interpreter f).filename = f.filename := by
  unfold entryOf
  cases model_predict f.content interpreter <;> rfl

/-- Once the three validation checks pass and the single `load_model` call
succeeds, the handler is exactly the per-file loop over `files[:6]` wrapped
in a 200 response. -/
lemma upload_eq_processFiles (tfLoad : String → Option Interpreter)
    (sanitize : String → String) (req : Request) (storage : Finset String)
    (m : String) (interpreter : Interpreter)
    (hf : req.hasFilesField = true)
    (hv : (req.files.length == 0 || req.files.all (fun f => f.filename == "")) = false)
    (hm : req.model = some m)
    (hmk : modelNames.contains m = true)
    (hload : load_model tfLoad m = some interpreter) :
    upload tfLoad sanitize req storage =
      (Response.ok (processFiles interpreter sanitize storage (req.files.take 6)).1,
       (processFiles interpreter sanitize storage (req.files.take 6)).2) := by
  have hmem : m ∈ modelNames := by simpa using hmk
  simp [upload, hf, hv, hm, hmk, hload, hmem]

/-- A request whose files all have non-empty filenames, with at least one
file, passes the second validation check. -/
lemma validation_pass_of_nonempty (req : Request)
    (hne : ∀ f ∈ req.files, f.filename ≠ "") (h1 : 1 ≤ req.files.length) :
    (req.files.length == 0 || req.files.all (fun f => f.filename == "")) = false := by
  cases hfs : req.files with
  | nil => rw [hfs] at h1; simp at h1
  | cons g gs =>
      have hg : g.filename ≠ "" := hne g (hfs ▸ List.mem_cons_self g gs)
      simp [hfs, hg]

/-! ## Claim theorems -/

/-- C7: when the `files` field is present but the list is empty or every
entry has an empty filename, the handler answers 400 with
`"At least one image file is required."`, leaves the uploads directory
untouched, and behaves identically whatever the model runtime would do
(no model is loaded, no file is saved). -/
theorem C7_reject_when_no_usable_file
    (tfLoad tfLoad2 : String → Option Interpreter) (sanitize : String → String)
    (req : Request) (storage : Finset String)
    (hf : req.hasFilesField = true)
    (h : req.files = [] ∨ ∀ f ∈ req.files, f.filename = "") :
    upload tfLoad sanitize req storage =
      (Response.badRequest "At least one image file is required.", storage) ∧
    upload tfLoad sanitize req storage = upload tfLoad2 sanitize req storage := by
  have hv : (req.files.length == 0 || req.files.all (fun f => f.filename == "")) = true := by
    rcases h with hnil | hall
    · rw [hnil]; rfl
    · have : req.files.all (fun f => f.filename == "") = true := by
        rw [List.all_eq_true]
        intro f hf2
        simpa using hall f hf2
      simp [this]
  have key : ∀ tl : String → Option Interpreter,
      upload tl sanitize req storage =
        (Response.badRequest "At least one image file is required.", storage) := by
    intro tl
    simp [upload, hf, hv]
  exact ⟨key tfLoad, (key tfLoad).trans (key tfLoad2).symm⟩

/-- C7 witness: the single-file request whose only entry has an empty
filename is rejected with the expected message and storage is unchanged. -/
theorem C7_witness :
    upload tfLoadA id reqNoUsable ∅ =
      (Response.badRequest "At least one image file is required.", ∅) ∧
    upload tfLoadA id reqNoUsable ∅ = upload tfLoadFail id reqNoUsable ∅ :=
  C7_reject_when_no_usable_file tfLoadA tfLoadFail id reqNoUsable ∅ rfl
    (Or.inr (by decide))

/-- C8: when the file-presence checks pass but the `model` form field is
absent or not a registered name, the handler answers 400 with
`"Invalid model selected."`, leaves storage untouched, and behaves
identically whatever the model runtime would do (no model is loaded, no
file is processed). -/
theorem C8_reject_invalid_model
    (tfLoad tfLoad2 : String → Option Interpreter) (sanitize : String → String)
    (req : Request) (storage : Finset String)
    (hf : req.hasFilesField = true)
    (hv : (req.files.length == 0 || req.files.all (fun f => f.filename == "")) = false)
    (hm : req.model = none ∨ ∃ m, req.model = some m ∧ modelNames.contains m = false) :
    upload tfLoad sanitize req storage =
      (Response.badRequest "Invalid model selected.", storage) ∧
    upload tfLoad sanitize req storage = upload tfLoad2 sanitize req storage := by
  have key : ∀ tl : String → Option Interpreter,
      upload tl sanitize req storage =
        (Response.badRequest "Invalid model selected.", storage) := by
    intro tl
    rcases hm with hnone | ⟨m, hsm, hmk⟩
    · simp [upload, hf, hv, hnone]
    · have hnm : m ∉ modelNames := by simpa using hmk
      simp [upload, hf, hv, hsm, hmk, hnm]
  exact ⟨key tfLoad, (key tfLoad).trans (key tfLoad2).symm⟩

/-- C8 witness: the request selecting the unregistered model `"ResNet50"`
is rejected with the expected message and storage is unchanged. -/
theorem C8_witness :
    upload tfLoadA id reqBadModel ∅ =
      (Response.badRequest "Invalid model selected.", ∅) ∧
    upload tfLoadA id reqBadModel ∅ = upload tfLoadFail id reqBadModel ∅ :=
  C8_reject_invalid_model tfLoadA tfLoadFail id reqBadModel ∅ rfl (by decide)
    (Or.inr ⟨"ResNet50", rfl, by decide⟩)

/-- C10: if all three validation checks pass but the single `load_model`
call fails, the exception propagates out of the handler uncaught, no result
entries are produced, and the uploads directory is exactly as before the
request (no temporary file was written). -/
theorem C10_load_failure_propagates
    (tfLoad : String → Option Interpreter) (sanitize : String → String)
    (req : Request) (storage : Finset String) (m : String)
    (hf : req.hasFilesField = true)
    (hv : (req.files.length == 0 || req.files.all (fun f => f.filename == "")) = false)
    (hm : req.model = some m)
    (hmk : modelNames.contains m = true)
    (hload : load_model tfLoad m = none) :
    upload tfLoad sanitize req storage = (Response.raised, storage) := by
  have hmem : m ∈ modelNames := by simpa using hmk
  simp [upload, hf, hv, hm, hmk, hmem, hload]

/-- C10 witness: with a failing runtime constructor, the otherwise valid
two-file request raises and storage is unchanged. -/
theorem C10_witness :
    upload tfLoadFail id reqA ∅ = (Response.raised, ∅) :=
  C10_load_failure_propagates tfLoadFail id reqA ∅ "MobileNetV2" rfl (by decide)
    rfl (by decide) rfl

/-- C9: the per-file pipeline is deterministic — with the same loaded
model, two files with the same byte content (whatever their names, and
whatever the storage state of each run) receive the same outcome, label or
error alike. -/
theorem C9_pipeline_deterministic
    (interpreter : Interpreter) (san1 san2 : String → String)
    (st1 st2 : Finset String) (f1 f2 : UploadedFile)
    (h : f1.content = f2.content) :
    ((processFile interpreter san1 st1 f1).1).outcome =
      ((processFile interpreter san2 st2 f2).1).outcome := by
  rw [processFile_fst, processFile_fst]
  unfold entryOf model_predict
  rw [h]
  cases interpreter f2.content <;> rfl

/-- C9 witness: two identically-sized uploads with the same bytes but
different names and storage states get the same outcome. -/
theorem C9_witness :
    ((processFile interpA id ∅ fileA).1).outcome =
      ((processFile interpA (fun s => s ++ "x") (insert "p" ∅) fileC).1).outcome :=
  C9_pipeline_deterministic interpA id (fun s => s ++ "x") ∅ (insert "p" ∅)
    fileA fileC rfl

/-- C6: on an output vector with (at least) two entries equal to the
maximum, `argmax` selects the lowest index among them: it is at most the
first tied index, it attains the maximum value, and every entry before it
is strictly smaller. -/
theorem C6_argmax_tie_lowest (l : List Int) (i j : Nat)
    (hij : i < j) (hj : j < l.length)
    (hmax : ∀ k, k < l.length → l.getD k 0 ≤ l.getD i 0)
    (_htie : l.getD i 0 = l.getD j 0) :
    argmax l ≤ i ∧ l.getD (argmax l) 0 = l.getD i 0 ∧
      ∀ k, k < argmax l → l.getD k 0 < l.getD i 0 := by
  have hi : i < l.length := lt_trans hij hj
  have hne : l ≠ [] := by
    intro hc
    rw [hc] at hj
    simp at hj
  obtain ⟨hlt, hmaxeq, hfirst⟩ := argmax_spec l hne
  have hgd : l.getD i 0 = l[i] := by
    rw [List.getD_eq_getElem?_getD, List.getElem?_eq_getElem hi]
    rfl
  have h1 : l.getD i 0 ≤ listMax l := by
    rw [hgd]
    exact le_listMax l l[i] (List.getElem_mem hi)
  have hmaxval : listMax l = l.getD i 0 :=
    le_antisymm (hmaxeq ▸ hmax (argmax l) hlt) h1
  have hle : argmax l ≤ i := by
    by_contra hcon
    have hilt : i < argmax l := Nat.lt_of_not_le hcon
    have := hfirst i hilt
    rw [hmaxval] at this
    exact lt_irrefl _ this
  exact ⟨hle, hmaxeq.trans hmaxval, fun k hk => hmaxval ▸ hfirst k hk⟩

/-- C6 witness: in `[3, 5, 5, 1]` the maximum 5 occurs at indices 1 and 2
and `argmax` picks index 1. -/
theorem C6_witness :
    argmax [3, 5, 5, 1] ≤ 1 ∧
    ([3, 5, 5, 1] : List Int).getD (argmax [3, 5, 5, 1]) 0 =
      ([3, 5, 5, 1] : List Int).getD 1 0 ∧
    ∀ k, k < argmax [3, 5, 5, 1] →
      ([3, 5, 5, 1] : List Int).getD k 0 < ([3, 5, 5, 1] : List Int).getD 1 0 :=
  C6_argmax_tie_lowest [3, 5, 5, 1] 1 2 (by decide) (by decide) (by decide)
    (by decide)

/-- C5 counterexample: the output vector `[5, 1]` is shorter than the
4-element Class Label Set, yet the interpreter returns the label
`"EarlyPreB"` and not the sentinel — refuting the claim that any vector
shorter than 4 entries yields `"Prediction index out of range."`. -/
theorem C5_counterexample :
    ([5, 1] : List Int).length < class_labels.length ∧
    interpretPreds [5, 1] = "EarlyPreB" ∧
    interpretPreds [5, 1] ≠ "Prediction index out of range." := by
  refine ⟨by decide, by decide, by decide⟩

/-- C5 (amended): when the arg-max index of a backend output vector is out
of range for the 4 class labels — which forces the vector to have at least
5 entries — the interpreter returns the sentinel
`"Prediction index out of range."` and the file's entry still carries a
`predicted_class` field; a nonempty vector shorter than the label set, by
contrast, never produces the sentinel. -/
theorem C5_out_of_range_sentinel
    (interpreter : Interpreter) (f : UploadedFile) (preds : List Int)
    (hb : model_predict f.content interpreter = some preds) :
    (class_labels.length ≤ argmax preds →
       5 ≤ preds.length ∧
       entryOf interpreter f =
         { filename := f.filename,
           outcome := Outcome.predicted_class "Prediction index out of range." }) ∧
    (preds ≠ [] → preds.length < class_labels.length →
       interpretPreds preds ≠ "Prediction index out of range.") := by
  have h4 : class_labels.length = 4 := rfl
  constructor
  · intro hge
    have hne : preds ≠ [] := by
      intro hc
      rw [hc] at hge
      have h0 : argmax ([] : List Int) = 0 := rfl
      rw [h0, h4] at hge
      omega
    have hlt := argmax_lt_length preds hne
    have hsent : interpretPreds preds = "Prediction index out of range." := by
      unfold interpretPreds
      rw [if_neg (Nat.not_lt.mpr hge)]
    refine ⟨by omega, ?_⟩
    unfold entryOf
    rw [hb]
    show ({ filename := f.filename,
            outcome := Outcome.predicted_class (interpretPreds preds) } : ResultEntry) = _
    rw [hsent]
  · intro hne hlen
    have hlt := argmax_lt_length preds hne
    have hidx : argmax preds < class_labels.length := lt_trans hlt hlen
    unfold interpretPreds
    rw [if_pos hidx]
    rw [h4] at hidx
    have : argmax preds = 0 ∨ argmax preds = 1 ∨ argmax preds = 2 ∨
        argmax preds = 3 := by omega
    rcases this with h | h | h | h <;> rw [h] <;> decide

/-- C5 witness: the 5-entry vector `[0, 0, 0, 0, 1]` has arg-max index 4,
so the entry for a decodable file is the sentinel under `predicted_class`;
the short-vector clause is also instantiated. -/
theorem C5_witness :
    (class_labels.length ≤ argmax [0, 0, 0, 0, 1] →
       5 ≤ ([0, 0, 0, 0, 1] : List Int).length ∧
       entryOf interp5 fileA =
         { filename := fileA.filename,
           outcome := Outcome.predicted_class "Prediction index out of range." }) ∧
    (([0, 0, 0, 0, 1] : List Int) ≠ [] →
       ([0, 0, 0, 0, 1] : List Int).length < class_labels.length →
       interpretPreds [0, 0, 0, 0, 1] ≠ "Prediction index out of range.") :=
  C5_out_of_range_sentinel interp5 fileA [0, 0, 0, 0, 1] rfl

/-- C1: a request that passes validation — `files` field present, model
registered (and loadable), N files all with non-empty filenames, 1 ≤ N ≤ 6
— gets a 200 response whose `results` list has exactly N entries, in
upload order, each carrying the original (unsanitized) filename of its
file. -/
theorem C1_valid_request_results
    (tfLoad : String → Option Interpreter) (sanitize : String → String)
    (req : Request) (storage : Finset String) (m : String)
    (interpreter : Interpreter)
    (hf : req.hasFilesField = true)
    (hm : req.model = some m)
    (hmk : modelNames.contains m = true)
    (hload : load_model tfLoad m = some interpreter)
    (hne : ∀ f ∈ req.files, f.filename ≠ "")
    (h1 : 1 ≤ req.files.length) (h6 : req.files.length ≤ 6) :
    ∃ results storage2,
      upload tfLoad sanitize req storage = (Response.ok results, storage2) ∧
      results.length = req.files.length ∧
      results.map ResultEntry.filename = req.files.map UploadedFile.filename := by
  have hv := validation_pass_of_nonempty req hne h1
  have hfilter : req.files.filter (fun f => !(f.filename == "")) = req.files := by
    rw [List.filter_eq_self]
    intro f hf2
    simpa using hne f hf2
  rw [upload_eq_processFiles tfLoad sanitize req storage m interpreter hf hv hm
    hmk hload]
  refine ⟨_, _, rfl, ?_, ?_⟩
  · rw [processFiles_fst, List.take_of_length_le h6, hfilter, List.length_map]
  · rw [processFiles_fst, List.take_of_length_le h6, hfilter, List.map_map]
    exact List.map_congr_left fun f _ => entryOf_filename interpreter f

/-- C1 witness: the valid two-file request gets a 200 with two entries in
upload order carrying the original filenames. -/
theorem C1_witness :
    ∃ results storage2,
      upload tfLoadA id reqA ∅ = (Response.ok results, storage2) ∧
      results.length = reqA.files.length ∧
      results.map ResultEntry.filename = reqA.files.map UploadedFile.filename :=
  C1_valid_request_results tfLoadA id reqA ∅ "MobileNetV2" interpA rfl rfl
    (by decide) rfl (by decide) (by decide) (by decide)

/-- C2 counterexample: in a 7-file request whose first six entries all have
an empty filename, the code processes `files[:6]` and skips all of them, so
the single non-empty-filename file (the seventh) produces NO result entry —
refuting the claim that the first 6 non-empty-filename entries are
processed and that empty-filename entries do not count toward the limit. -/
theorem C2_counterexample :
    req7.files.length = 7 ∧
    (req7.files.filter (fun f => !(f.filename == ""))).length = 1 ∧
    upload tfLoadA id req7 ∅ = (Response.ok [], ∅) := by
  refine ⟨rfl, rfl, rfl⟩

/-- C2 (amended): for a request with more than 6 files that reaches the
loop, exactly the entries among the FIRST 6 RAW list entries whose filename
is non-empty are processed, in order — empty-filename entries are skipped
but still count toward the limit of 6, and every entry beyond the 6th raw
one is silently ignored and produces no result entry. -/
theorem C2_first_six_raw_entries
    (tfLoad : String → Option Interpreter) (sanitize : String → String)
    (req : Request) (storage : Finset String) (m : String)
    (interpreter : Interpreter)
    (hf : req.hasFilesField = true)
    (hv : (req.files.length == 0 || req.files.all (fun f => f.filename == "")) = false)
    (hm : req.model = some m)
    (hmk : modelNames.contains m = true)
    (hload : load_model tfLoad m = some interpreter)
    (_hgt : 6 < req.files.length) :
    ∃ storage2,
      upload tfLoad sanitize req storage =
        (Response.ok
          (((req.files.take 6).filter (fun f => !(f.filename == ""))).map
            (entryOf interpreter)),
         storage2) := by
  rw [upload_eq_processFiles tfLoad sanitize req storage m interpreter hf hv hm
    hmk hload]
  exact ⟨_, by rw [processFiles_fst]⟩

/-- C2 witness: in the 7-file request the results are exactly the entries
of the non-empty-filename files among the first six raw entries (here:
none). -/
theorem C2_witness :
    ∃ storage2,
      upload tfLoadA id req7 ∅ =
        (Response.ok
          (((req7.files.take 6).filter (fun f => !(f.filename == ""))).map
            (entryOf interpA)),
         storage2) :=
  C2_first_six_raw_entries tfLoadA id req7 ∅ "MobileNetV2" interpA rfl
    (by decide) rfl (by decide) rfl (by decide)

/-- C3: every file the handler saves to the uploads directory (every
processed file, i.e. every non-empty-filename entry among `files[:6]`) is
removed again before the response is produced — its temporary path is not
in the final storage state, whether its prediction succeeded or failed. -/
theorem C3_saved_files_removed
    (tfLoad : String → Option Interpreter) (sanitize : String → String)
    (req : Request) (storage : Finset String) (m : String)
    (interpreter : Interpreter)
    (hf : req.hasFilesField = true)
    (hv : (req.files.length == 0 || req.files.all (fun f => f.filename == "")) = false)
    (hm : req.model = some m)
    (hmk : modelNames.contains m = true)
    (hload : load_model tfLoad m = some interpreter) :
    ∀ f ∈ req.files.take 6, f.filename ≠ "" →
      filePath sanitize f ∉ (upload tfLoad sanitize req storage).2 := by
  intro f hmem hfn
  rw [upload_eq_processFiles tfLoad sanitize req storage m interpreter hf hv hm
    hmk hload]
  rw [processFiles_snd]
  rw [mem_foldl_erase]
  rintro ⟨-, hnot⟩
  exact hnot (List.mem_map_of_mem (filePath sanitize)
    (List.mem_filter.mpr ⟨hmem, by simpa using hfn⟩))

/-- C3 witness: for the valid two-file request (one file succeeding, one
failing prediction) neither temporary path survives in storage; shown here
for the failing file `b.png`. -/
theorem C3_witness :
    filePath id fileB ∉ (upload tfLoadA id reqA ∅).2 :=
  C3_saved_files_removed tfLoadA id reqA ∅ "MobileNetV2" interpA rfl
    (by decide) rfl (by decide) rfl fileB (by decide) (by decide)

/-- C4: if preprocessing or inference fails for one file (the backend
returns `none` for its bytes), the handler records
`{filename, error: "Prediction failed."}` for that file, keeps processing
the remaining files (every processed file still has its entry), and still
answers 200. -/
theorem C4_per_file_failure_partial_success
    (tfLoad : String → Option Interpreter) (sanitize : String → String)
    (req : Request) (storage : Finset String) (m : String)
    (interpreter : Interpreter) (i : Nat)
    (hf : req.hasFilesField = true)
    (hv : (req.files.length == 0 || req.files.all (fun f => f.filename == "")) = false)
    (hm : req.model = some m)
    (hmk : modelNames.contains m = true)
    (hload : load_model tfLoad m = some interpreter)
    (hi : i < ((req.files.take 6).filter (fun f => !(f.filename == ""))).length)
    (hfail : model_predict
        (((req.files.take 6).filter (fun f => !(f.filename == ""))).getD i
          { filename := "", content := [] }).content interpreter = none) :
    ∃ results storage2,
      upload tfLoad sanitize req storage = (Response.ok results, storage2) ∧
      results.length =
        ((req.files.take 6).filter (fun f => !(f.filename == ""))).length ∧
      results.getD i { filename := "", outcome := Outcome.error "" } =
        { filename :=
            (((req.files.take 6).filter (fun f => !(f.filename == ""))).getD i
              { filename := "", content := [] }).filename,
          outcome := Outcome.error "Prediction failed." } := by
  rw [upload_eq_processFiles tfLoad sanitize req storage m interpreter hf hv hm
    hmk hload]
  refine ⟨_, _, rfl, ?_, ?_⟩
  · rw [processFiles_fst, List.length_map]
  · rw [processFiles_fst]
    have hgd :
        (((req.files.take 6).filter (fun f => !(f.filename == ""))).map
          (entryOf interpreter)).getD i
            { filename := "", outcome := Outcome.error "" } =
        entryOf interpreter
          (((req.files.take 6).filter (fun f => !(f.filename == ""))).getD i
            { filename := "", content := [] }) := by
      rw [List.getD_eq_getElem?_getD, List.getD_eq_getElem?_getD,
        List.getElem?_map, List.getElem?_eq_getElem hi]
      rfl
    rw [hgd]
    unfold entryOf
    rw [hfail]

/-- C4 witness: in the two-file request the second file's bytes fail to
decode, yet the response is a 200 with both entries and the second entry is
the `"Prediction failed."` error. -/
theorem C4_witness :
    ∃ results storage2,
      upload tfLoadA id reqA ∅ = (Response.ok results, storage2) ∧
      results.length =
        ((reqA.files.take 6).filter (fun f => !(f.filename == ""))).length ∧
      results.getD 1 { filename := "", outcome := Outcome.error "" } =
        { filename :=
            (((reqA.files.take 6).filter (fun f => !(f.filename == ""))).getD 1
              { filename := "", content := [] }).filename,
          outcome := Outcome.error "Prediction failed." } :=
  C4_per_file_failure_partial_success tfLoadA id reqA ∅ "MobileNetV2" interpA 1
    rfl (by decide) rfl (by decide) rfl (by decide) rfl
